import Mathlib

/-!
Verification of the acquisition orchestration layer of the Wesleyalemao
repository (src/teste12.py): league-name alias resolution, season-key
ordering, URL identifier extraction, the resilient HTTP client, the
standings/teams/events adapters and the primary-then-fallback control flow.

Python strings are modelled as Lean `String`; Python `None`-able values as
`Option`; raised exceptions as `Except` errors.  Character-level operations
(strip, lower, digit tests) are re-implemented on `List Char` to mirror the
CPython semantics the source relies on (ASCII subset, which covers every
string the program manipulates).
-/

/-! ## Character and string helpers (CPython semantics, ASCII subset) -/

/-- Python `str.strip` whitespace set: space, tab, newline, carriage return,
vertical tab, form feed. -/
def isPySpace (c : Char) : Bool :=
  c.toNat = 32 || c.toNat = 9 || c.toNat = 10 || c.toNat = 13 || c.toNat = 11 || c.toNat = 12

/-- ASCII decimal digit test (the `\d` class of the source's regexes, ASCII part). -/
def isAsciiDigit (c : Char) : Bool :=
  decide (48 ≤ c.toNat ∧ c.toNat ≤ 57)

/-- Numeric value of an ASCII digit character. -/
def digitVal (c : Char) : Nat := c.toNat - 48

/-- Value of a string of ASCII digits, most significant first. -/
def natOfDigits (cs : List Char) : Nat :=
  cs.foldl (fun a c => 10 * a + digitVal c) 0

/-- ASCII lower-casing of one character (Python `str.lower`, ASCII part). -/
def toLowerChar (c : Char) : Char :=
  if 65 ≤ c.toNat ∧ c.toNat ≤ 90 then Char.ofNat (c.toNat + 32) else c

/-- Python `str.lower` (ASCII part). -/
def pylower (s : String) : String := String.mk (s.data.map toLowerChar)

/-- Drop leading Python whitespace. -/
def lstripList (cs : List Char) : List Char := cs.dropWhile isPySpace

/-- Drop trailing Python whitespace. -/
def rstripList (cs : List Char) : List Char := (cs.reverse.dropWhile isPySpace).reverse

/-- Python `str.strip()`. -/
def pystrip (s : String) : String := String.mk (rstripList (lstripList s.data))

/-! ## LeagueAliasResolver: SCRAPERFC_ALIASES and normalize_league_name -/

/-- The static alias table `SCRAPERFC_ALIASES` of src/teste12.py, in source
order, as an association list (CPython dicts preserve insertion order and the
keys here are pairwise distinct). -/
def SCRAPERFC_ALIASES : List (String × String) := [
  ("champions league", "Champions League"),
  ("uefa champions league", "Champions League"),
  ("ucl", "Champions League"),
  ("europa league", "Europa League"),
  ("uefa europa league", "Europa League"),
  ("europa conference league", "Europa Conference League"),
  ("epl", "EPL"),
  ("premier league", "EPL"),
  ("english premier league", "EPL"),
  ("la liga", "La Liga"),
  ("laliga", "La Liga"),
  ("bundesliga", "Bundesliga"),
  ("serie a", "Serie A"),
  ("ligue 1", "Ligue 1"),
  ("turkish super lig", "Turkish Super Lig"),
  ("super lig", "Turkish Super Lig"),
  ("superliga turca", "Turkish Super Lig"),
  ("mls", "MLS"),
  ("usl championship", "USL Championship"),
  ("usl1", "USL1"),
  ("usl 1", "USL1"),
  ("usl2", "USL2"),
  ("usl 2", "USL2"),
  ("argentina liga profesional", "Argentina Liga Profesional"),
  ("liga profesional argentina", "Argentina Liga Profesional"),
  ("argentina copa de la liga profesional", "Argentina Copa de la Liga Profesional"),
  ("copa de la liga", "Argentina Copa de la Liga Profesional"),
  ("liga 1 peru", "Liga 1 Peru"),
  ("saudi pro league", "Saudi Pro League"),
  ("world cup", "World Cup"),
  ("copa do mundo", "World Cup"),
  ("euros", "Euros"),
  ("euro", "Euros"),
  ("gold cup", "Gold Cup"),
  ("copa ouro", "Gold Cup"),
  ("libertadores", "Copa Libertadores"),
  ("copa libertadores", "Copa Libertadores"),
  ("brasileirao", "Brasileirão Série A"),
  ("campeonato brasileiro", "Brasileirão Série A"),
  ("serie a brasil", "Brasileirão Série A"),
  ("brasileirao serie a", "Brasileirão Série A"),
  ("brasileirao a", "Brasileirão Série A"),
  ("brasileirao b", "Brasileirão Série B"),
  ("campeonato brasileiro serie b", "Brasileirão Série B"),
  ("serie b brasil", "Brasileirão Série B"),
  ("brasileirao serie b", "Brasileirão Série B"),
  ("copa do brasil", "Copa do Brasil")]

/-- `normalize_league_name` of src/teste12.py: `None` and the empty string
(Python falsiness of `not s`) give `None`; otherwise the trimmed, lower-cased
input is looked up in `SCRAPERFC_ALIASES`; a hit returns the canonical name,
a miss returns the trimmed original-case input (`dict.get(key, default)`). -/
def normalize_league_name : Option String → Option String
  | none => none
  | some s =>
    if s = "" then none
    else
      match List.lookup (pylower (pystrip s)) SCRAPERFC_ALIASES with
      | some v => some v
      | none => some (pystrip s)

/-! ## SeasonKeyOrdering: season_order_key -/

/-- Helper of the Python `int()` grammar: digits with single underscores
allowed between digits only (`1_0` parses, `1__0`, `_1`, `1_` do not). -/
def digitGroupRest (acc : Nat) : List Char → Option Nat
  | [] => some acc
  | c :: rest =>
    if c = '_' then
      match rest with
      | [] => none
      | c2 :: rest2 =>
        if isAsciiDigit c2 then digitGroupRest (10 * acc + digitVal c2) rest2 else none
    else if isAsciiDigit c then digitGroupRest (10 * acc + digitVal c) rest
    else none

/-- Python `int()` digit part: nonempty, starts with a digit. -/
def pyDigitPart : List Char → Option Nat
  | [] => none
  | c :: rest => if isAsciiDigit c then digitGroupRest (digitVal c) rest else none

/-- Python `int(s)` on an already-stripped string: optional sign followed by
a digit part; `none` when the parse fails (the bare `except` of the source). -/
def pyIntParse (s : String) : Option Int :=
  match s.data with
  | [] => none
  | c :: rest =>
    if c = '+' then (pyDigitPart rest).map Int.ofNat
    else if c = '-' then (pyDigitPart rest).map (fun n => -(Int.ofNat n))
    else (pyDigitPart (c :: rest)).map Int.ofNat

/-- Test for `re.fullmatch(r"\d{4}", s)`. -/
def matchesFourDigits (cs : List Char) : Bool :=
  decide (cs.length = 4) && cs.all isAsciiDigit

/-- Match for `re.fullmatch(r"(\d{2})/(\d{2})", s)`, returning the value of
the second two-digit group when the shape matches. -/
def ddSlashDD : List Char → Option Nat
  | [a, b, sep, c, d] =>
    if isAsciiDigit a && isAsciiDigit b && decide (sep = '/') && isAsciiDigit c && isAsciiDigit d
    then some (10 * digitVal c + digitVal d)
    else none
  | _ => none

/-- `season_order_key` of src/teste12.py: strip; a four-digit key is its own
year; a `DD/DD` key maps to the ending year with the century pivot
`end ≤ 30 → 2000 + end`, otherwise `1900 + end`; otherwise a direct `int()`
parse is attempted; an unparseable key yields the sentinel `-1`. -/
def season_order_key (seasonKey : String) : Int :=
  let s := pystrip seasonKey
  if matchesFourDigits s.data then Int.ofNat (natOfDigits s.data)
  else
    match ddSlashDD s.data with
    | some e => if e ≤ 30 then Int.ofNat (2000 + e) else Int.ofNat (1900 + e)
    | none =>
      match pyIntParse s with
      | some n => n
      | none => -1

/-! ## IdentifierExtractor: extract_ids_from_url -/

/-- Match of the pattern `/(\d+)(?:[#?/]|$)` at the head of a suffix: a slash,
a maximal nonempty digit run, then `#`, `?`, `/` or the end of the string.
Backtracking to a shorter digit run can never succeed (the following
character would be a digit), so the maximal run is the regex's behaviour. -/
def tourHere : List Char → Option Nat
  | '/' :: rest =>
    let ds := rest.takeWhile isAsciiDigit
    if ds = [] then none
    else
      match rest.dropWhile isAsciiDigit with
      | [] => some (natOfDigits ds)
      | c :: _ => if c = '#' ∨ c = '?' ∨ c = '/' then some (natOfDigits ds) else none
  | _ => none

/-- Match of the pattern `#id:(\d+)` at the head of a suffix. -/
def idHere : List Char → Option Nat
  | '#' :: 'i' :: 'd' :: ':' :: rest =>
    let ds := rest.takeWhile isAsciiDigit
    if ds = [] then none else some (natOfDigits ds)
  | _ => none

/-- `re.search`: try the matcher at every suffix, left to right, returning the
first success (Python regex search is leftmost-match). -/
def searchFirst (f : List Char → Option Nat) : List Char → Option Nat
  | [] => f []
  | c :: rest =>
    match f (c :: rest) with
    | some v => some v
    | none => searchFirst f rest

/-- Written from the spec's words, for comparison with the code: the claim
reads `tournamentId` as the LAST integer segment, i.e. the rightmost suffix at
which the segment pattern matches. -/
def searchLastSeg (f : List Char → Option Nat) : List Char → Option Nat
  | [] => f []
  | c :: rest =>
    match searchLastSeg f rest with
    | some v => some v
    | none => f (c :: rest)

/-- `extract_ids_from_url` of src/teste12.py: first match of
`/(\d+)(?:[#?/]|$)` and first match of `#id:(\d+)`; `none` models the raised
`ValueError` (MalformedReferenceError) when either pattern is absent. -/
def extract_ids_from_url (url : String) : Option (Nat × Nat) :=
  match searchFirst tourHere url.data, searchFirst idHere url.data with
  | some t, some s => some (t, s)
  | _, _ => none

/-! ## FallbackAdapter: season resolution of fallback_scraperfc_matches_and_stats -/

/-- One possible failure of the fallback season resolution: the
`RuntimeError("Sem seasons disponíveis ...")` of src/teste12.py
(the spec's NoSeasonsAvailableError). -/
inductive FbErr
  | noSeasonsAvailable
deriving DecidableEq

/-- The inverted mapping `inv = {v: k for k, v in seasons.items()}` followed by
`inv.get(season_id)`: for a duplicated season id the later key overwrites the
earlier one, hence the lookup over the reversed list. -/
def invLookup (seasons : List (String × Int)) (sid : Int) : Option String :=
  (seasons.reverse.find? (fun p => p.2 == sid)).map Prod.fst

/-- `max(seasons.keys(), key=season_order_key)`: CPython `max` scans left to
right and replaces the current maximum only on a strictly greater key, so the
first maximal element wins; `none` for an empty list (where CPython would
raise, a case the source guards with `if seasons:`). -/
def maxBySeasonOrder (keys : List String) : Option String :=
  keys.foldl
    (fun acc k =>
      match acc with
      | none => some k
      | some cur => if season_order_key cur < season_order_key k then some k else some cur)
    none

/-- The season-resolution block of `fallback_scraperfc_matches_and_stats`
(src/teste12.py lines 295-307): an explicit `year_override` is used verbatim
(`str` of a string is the string itself); otherwise the inverted mapping is
consulted with the known season id; a missing or falsy (empty-string) result
falls through to the chronologically latest key, and an empty season mapping
raises. -/
def fallback_resolve_season (seasons : List (String × Int)) (seasonId : Option Int)
    (yearOverride : Option String) : Except FbErr String :=
  match yearOverride with
  | some y => Except.ok y
  | none =>
    match seasonId.bind (invLookup seasons) with
    | some k =>
      if k = "" then
        match maxBySeasonOrder (seasons.map Prod.fst) with
        | some m => Except.ok m
        | none => Except.error FbErr.noSeasonsAvailable
      else Except.ok k
    | none =>
      match maxBySeasonOrder (seasons.map Prod.fst) with
      | some m => Except.ok m
      | none => Except.error FbErr.noSeasonsAvailable

/-! ## ResilientHttpClient: build_session retry policy and get_json -/

/-- Failures a request can surface: an HTTP status error
(`requests.HTTPError`, from `raise_for_status` or the synthesized
`HTTPError("403 em ...")`), the `requests.exceptions.RetryError` raised when
the transport retry budget is exhausted, the defensive
`RuntimeError("Falha inesperada em get_json")`, and any other transport
exception (connection errors, timeouts). -/
inductive PErr
  | httpError (code : Nat)
  | retryError
  | runtimeUnexpected
  | other
deriving DecidableEq

/-- The two header profiles of src/teste12.py: HEADERS_PRIMARY (full browser)
then HEADERS_FALLBACK (minimal). Their contents only influence the upstream
server, which the model abstracts as the response oracle. -/
inductive HeaderProfile
  | primary
  | fallbackMin
deriving DecidableEq

/-- The ordered tuple `(HEADERS_PRIMARY, HEADERS_FALLBACK)` iterated by
`get_json`. -/
def headerProfiles : List HeaderProfile := [HeaderProfile.primary, HeaderProfile.fallbackMin]

/-- The loop body of `get_json` over a session oracle `sget` (one
`session.get` call per header profile, threading a state `σ`) and a
`time.sleep(0.6)` action: a raised exception propagates; a 403 response
records `last_exc` and rotates to the next profile after sleeping; any other
status short-circuits via `raise_for_status` (error for status ≥ 400) or
`return r.json()`; an exhausted profile list re-raises `last_exc` when one was
recorded and otherwise hits the defensive `RuntimeError`. -/
def getJsonLoop {σ : Type} (sget : HeaderProfile → σ → Except PErr ((Nat × String) × σ))
    (sleep06 : σ → σ) :
    List HeaderProfile → Option PErr → σ → Except PErr String × σ
  | [], some e, s => (Except.error e, s)
  | [], none, s => (Except.error PErr.runtimeUnexpected, s)
  | h :: rest, _, s =>
    match sget h s with
    | Except.error e => (Except.error e, s)
    | Except.ok ((status, body), s1) =>
      if status = 403 then
        getJsonLoop sget sleep06 rest (some (PErr.httpError 403)) (sleep06 s1)
      else if 400 ≤ status then (Except.error (PErr.httpError status), s1)
      else (Except.ok body, s1)

/-- `get_json` of src/teste12.py, over an abstract session. -/
def get_json {σ : Type} (sget : HeaderProfile → σ → Except PErr ((Nat × String) × σ))
    (sleep06 : σ → σ) (s : σ) : Except PErr String × σ :=
  getJsonLoop sget sleep06 headerProfiles none s

/-- `status_forcelist=(403, 429, 500, 502, 503, 504)` of `build_session`. -/
def statusForcelist : List Nat := [403, 429, 500, 502, 503, 504]

/-- `total=3` of the `Retry` policy mounted by `build_session`: up to three
transport-level retries after the initial attempt. -/
def retryTotal : Nat := 3

/-- State of the modelled network: the queue of upstream responses
(status code and body) still to be served, and the number of waits (sleeps)
performed so far. -/
structure NetState where
  queue : List (Nat × String)
  sleeps : Nat
deriving DecidableEq

/-- Modelled from the spec: the transport-level retry policy that
`build_session` configures (`Retry(total=3, backoff_factor=0.6,
status_forcelist=(403, 429, 500, 502, 503, 504), allowed_methods={GET})`) is
executed by urllib3, which is not part of this repository. Per spec section
4.2 a GET is retried up to three times on a forcelist status with a backoff
sleep between attempts, and raises a terminal retry error when the budget is
exhausted; a response outside the forcelist is returned as is. Each attempt
consumes one queued upstream response; an empty queue models a connection
failure. -/
def sessionGet : Nat → NetState → Except PErr ((Nat × String) × NetState)
  | _, ⟨[], _⟩ => Except.error PErr.other
  | retriesLeft, ⟨(code, body) :: rest, n⟩ =>
    if code ∈ statusForcelist then
      match retriesLeft with
      | 0 => Except.error PErr.retryError
      | r + 1 => sessionGet r ⟨rest, n + 1⟩
    else Except.ok ((code, body), ⟨rest, n⟩)

/-- `get_json` run against the modelled transport: each header profile's
`session.get` goes through the retry policy of `build_session`, and the
rotation's `time.sleep(0.6)` increments the wait counter. -/
def get_json_net (s : NetState) : Except PErr String × NetState :=
  get_json (fun _ st => sessionGet retryTotal st) (fun st => ⟨st.queue, st.sleeps + 1⟩) s

/-! ## PrimaryApiAdapter: standings, teams and events payload mapping -/

/-- Python truthiness-based `a or b` on optional integers: `None` and `0` are
falsy and fall through to `b`. -/
def pyOrInt : Option Int → Option Int → Option Int
  | some v, b => if v = 0 then b else some v
  | none, b => b

/-- Python truthiness-based `a or b` on optional strings: `None` and the
empty string are falsy and fall through to `b`. -/
def pyOrStr : Option String → Option String → Option String
  | some v, b => if v = "" then b else some v
  | none, b => b

/-- The nested `team` object of a standings row (`row.get("team", {})`). -/
structure TeamIn where
  id : Option Int
  name : Option String
deriving DecidableEq

/-- One upstream standings row as consumed by `api_get_standings`; every
field is optional, mirroring `row.get(...)`. -/
structure StandRowIn where
  team : Option TeamIn
  position : Option Int
  matchesPlayed : Option Int
  wins : Option Int
  draws : Option Int
  losses : Option Int
  scoresFor : Option Int
  scoresAgainst : Option Int
  scoreDiff : Option Int
  goalsFor : Option Int
  goalsAgainst : Option Int
  goalDiff : Option Int
  points : Option Int
deriving DecidableEq

/-- One upstream standings block (`data["standings"]` entry): a group name,
a type, and rows. -/
structure StandBlockIn where
  name : Option String
  type : Option String
  rows : List StandRowIn
deriving DecidableEq

/-- One flat output row of `api_get_standings` (the Portuguese CSV column
names of the source). -/
structure StandRowOut where
  grupoFase : Option String
  pos : Option Int
  time : Option String
  teamId : Option Int
  jogos : Option Int
  v : Option Int
  e : Option Int
  d : Option Int
  gp : Option Int
  gc : Option Int
  sg : Option Int
  pontos : Option Int
deriving DecidableEq

/-- The row mapping inside `api_get_standings`: group name is
`block.get("name") or block.get("type")`; the goal fields use Python `or`
between the `scoresFor`-family and the `goalsFor`-family. -/
def standRowOut (grupo : Option String) (row : StandRowIn) : StandRowOut :=
  let team := row.team.getD ⟨none, none⟩
  ⟨grupo, row.position, team.name, team.id, row.matchesPlayed, row.wins, row.draws, row.losses,
    pyOrInt row.scoresFor row.goalsFor,
    pyOrInt row.scoresAgainst row.goalsAgainst,
    pyOrInt row.scoreDiff row.goalDiff,
    row.points⟩

/-- The full flattening loop of `api_get_standings` over the `standings`
blocks. -/
def standingsRows (blocks : List StandBlockIn) : List StandRowOut :=
  blocks.flatMap (fun b => b.rows.map (standRowOut (pyOrStr b.name b.type)))

/-- `api_get_standings`: the fetch (any raised exception) propagates to the
caller; a successful payload is flattened into rows. -/
def api_get_standings (fetched : Except PErr (List StandBlockIn)) :
    Except PErr (List StandRowOut) :=
  match fetched with
  | Except.error err => Except.error err
  | Except.ok blocks => Except.ok (standingsRows blocks)

/-- The nested `country` object of a team (`t.get("country") or {}`). -/
structure CountryIn where
  name : Option String
  alpha2 : Option String
deriving DecidableEq

/-- One upstream team object as consumed by `api_get_teams`. -/
structure TeamFullIn where
  id : Option Int
  name : Option String
  slug : Option String
  country : Option CountryIn
  city : Option String
  founded : Option Int
deriving DecidableEq

/-- One flat output row of `api_get_teams`. -/
structure TeamRowOut where
  teamId : Option Int
  nome : Option String
  slug : Option String
  pais : Option String
  paisCode : Option String
  cidade : Option String
  fundacao : Option Int
deriving DecidableEq

/-- The row mapping inside `api_get_teams`, flattening the country
sub-object. -/
def teamRowOut (t : TeamFullIn) : TeamRowOut :=
  let country := t.country.getD ⟨none, none⟩
  ⟨t.id, t.name, t.slug, country.name, country.alpha2, t.city, t.founded⟩

/-- `api_get_teams`: the fetch propagates failures; a successful payload is
mapped into flat rows. -/
def api_get_teams (fetched : Except PErr (List TeamFullIn)) :
    Except PErr (List TeamRowOut) :=
  match fetched with
  | Except.error err => Except.error err
  | Except.ok ts => Except.ok (ts.map teamRowOut)

/-- The nested `status` object of an event. -/
structure StatusIn where
  type : Option String
  description : Option String
deriving DecidableEq

/-- The nested `roundInfo` object of an event. -/
structure RoundIn where
  round : Option Int
deriving DecidableEq

/-- The nested score object of an event (`current` field). -/
structure ScoreIn where
  current : Option Int
deriving DecidableEq

/-- One upstream event object as consumed by `api_get_events`. -/
structure EventIn where
  id : Option Int
  roundInfo : Option RoundIn
  startTimestamp : Option Int
  status : Option StatusIn
  homeTeam : Option TeamIn
  awayTeam : Option TeamIn
  homeScore : Option ScoreIn
  awayScore : Option ScoreIn
deriving DecidableEq

/-- One flat output row of `api_get_events` (and of the fallback match
flattening, which produces the same columns). -/
structure EventRowOut where
  eventId : Option Int
  rodada : Option Int
  dataUtcTs : Option Int
  statusType : Option String
  statusDesc : Option String
  homeTeam : Option String
  homeId : Option Int
  awayTeam : Option String
  awayId : Option Int
  placarHome : Option Int
  placarAway : Option Int
deriving DecidableEq

/-- The row mapping inside `api_get_events`, with missing sub-objects treated
as empty. -/
def eventRowOut (ev : EventIn) : EventRowOut :=
  let home := ev.homeTeam.getD ⟨none, none⟩
  let away := ev.awayTeam.getD ⟨none, none⟩
  let status := ev.status.getD ⟨none, none⟩
  ⟨ev.id, (ev.roundInfo.getD ⟨none⟩).round, ev.startTimestamp, status.type,
    status.description, home.name, home.id, away.name, away.id,
    (ev.homeScore.getD ⟨none⟩).current, (ev.awayScore.getD ⟨none⟩).current⟩

/-- Timestamp order used by `df.sort_values(by="DataUTC")`: rows without a
kickoff timestamp (NaT) sort last. -/
def tsLe (a b : EventRowOut) : Bool :=
  match a.dataUtcTs, b.dataUtcTs with
  | some x, some y => decide (x ≤ y)
  | some _, none => true
  | none, some _ => false
  | none, none => true

/-- Insertion into a timestamp-sorted list. -/
def insertByTs (r : EventRowOut) : List EventRowOut → List EventRowOut
  | [] => [r]
  | x :: xs => if tsLe r x then r :: x :: xs else x :: insertByTs r xs

/-- The ascending-by-kickoff sort applied by `api_get_events` before
returning (the exact permutation on ties is irrelevant to every claim). -/
def sortByTs (rows : List EventRowOut) : List EventRowOut :=
  rows.foldr insertByTs []

/-- `api_get_events` of src/teste12.py: the fetch is wrapped in
`try ... except requests.HTTPError: return pd.DataFrame()`, so an HTTP status
error is swallowed into an empty result while every other exception (notably
`requests.exceptions.RetryError`, which is not an `HTTPError`) propagates;
a successful payload is flattened and sorted by kickoff. -/
def api_get_events (fetched : Except PErr (List EventIn)) :
    Except PErr (List EventRowOut) :=
  match fetched with
  | Except.error (PErr.httpError _) => Except.ok []
  | Except.error err => Except.error err
  | Except.ok evs => Except.ok (sortByTs (evs.map eventRowOut))

/-! ## AcquisitionOrchestrator: the URL-driven run of main() -/

/-- Outcomes of the four network-dependent operations of a URL-driven run,
abstracting the upstream service and the external ScraperFC capability:
the three primary payload fetches (each an exception or a payload) and the
fallback call (an exception or a pair of match rows and passed-through
player-stat rows). -/
structure UrlRunEnv where
  standingsFetch : Except PErr (List StandBlockIn)
  teamsFetch : Except PErr (List TeamFullIn)
  eventsFetch : Except PErr (List EventIn)
  fallbackFetch : Except Unit (List EventRowOut × List String)

/-- The fallback branch of `main()`: without a resolvable league name it
raises (no fallback call at all); otherwise `fallback_scraperfc_matches_and_stats`
is called exactly once with the resolved league name, a failure inside it is
caught and reported (no files), and on success `events_fallback.csv` and
`player_stats_fallback.csv` are written for the nonempty results. The first
component is the list of files written, the second the list of league names
the fallback was invoked with. -/
def fallbackRun (env : UrlRunEnv) (league : Option String) : List String × List String :=
  match league with
  | none => ([], [])
  | some leagueName =>
    match env.fallbackFetch with
    | Except.error _ => ([], [leagueName])
    | Except.ok (ms, st) =>
      ((if ms ≠ [] then ["events_fallback.csv"] else []) ++
        (if st ≠ [] then ["player_stats_fallback.csv"] else []), [leagueName])

/-- The URL-driven run of `main()`: the three primary fetches are evaluated
in sequence inside one `try`; any exception from standings, teams, or events
(after the internal swallowing of `api_get_events`) aborts the primary path
and transfers to the fallback branch; on full success the nonempty dataframes
are written to `standings.csv`, `teams.csv`, `events.csv` and the run returns
without ever calling the fallback. -/
def mainUrlRun (env : UrlRunEnv) (fallbackLeague : Option String) :
    List String × List String :=
  match api_get_standings env.standingsFetch with
  | Except.error _ => fallbackRun env fallbackLeague
  | Except.ok dfStand =>
    match api_get_teams env.teamsFetch with
    | Except.error _ => fallbackRun env fallbackLeague
    | Except.ok dfTeams =>
      match api_get_events env.eventsFetch with
      | Except.error _ => fallbackRun env fallbackLeague
      | Except.ok dfEvents =>
        ((if dfStand ≠ [] then ["standings.csv"] else []) ++
          (if dfTeams ≠ [] then ["teams.csv"] else []) ++
          (if dfEvents ≠ [] then ["events.csv"] else []), [])

/-! ## Concrete inputs used by the witnesses and counterexamples -/

/-- A standings row whose upstream `scoresFor` is present with value 0 while
the alias `goalsFor` is 5: the input exhibiting the Python-`or` falsiness of
the goal columns. -/
def zeroScoresRow : StandRowIn :=
  ⟨none, none, none, none, none, none, some 0, none, none, some 5, none, none, none⟩

/-- A fallback match row with every optional field absent. -/
def emptyMatchRow : EventRowOut :=
  ⟨none, none, none, none, none, none, none, none, none, none, none⟩

/-- A run in which standings and teams succeed with nonempty payloads, the
events fetch fails with `requests.exceptions.RetryError` (exhausted transport
retries), and the fallback succeeds. -/
def retryEventsEnv : UrlRunEnv :=
  ⟨Except.ok [⟨some "Total", none, [⟨none, some 1, some 2, some 1, some 0, some 1,
      some 3, some 2, some 1, none, none, none, some 3⟩]⟩],
    Except.ok [⟨some 10, some "TeamX", some "teamx", none, none, none⟩],
    Except.error PErr.retryError,
    Except.ok ([emptyMatchRow], ["statrow"])⟩

/-- A run in which the primary standings fetch raises and the fallback
succeeds with nonempty results. -/
def standingsFailEnv : UrlRunEnv :=
  ⟨Except.error PErr.retryError, Except.ok [], Except.ok [],
    Except.ok ([emptyMatchRow], ["statrow"])⟩

/-- A run in which standings and teams succeed (standings nonempty, teams
empty) and the events fetch fails with an HTTP status error. -/
def httpEventsEnv : UrlRunEnv :=
  ⟨Except.ok [⟨some "Total", none, [⟨none, some 1, some 2, some 1, some 0, some 1,
      some 3, some 2, some 1, none, none, none, some 3⟩]⟩],
    Except.ok [],
    Except.error (PErr.httpError 404),
    Except.ok ([emptyMatchRow], ["statrow"])⟩

/-! ## Helper lemmas -/

/-- A successful association-list lookup returns a stored pair. -/
theorem lookup_mem {tbl : List (String × String)} {k v : String}
    (h : List.lookup k tbl = some v) : (k, v) ∈ tbl := by
  induction tbl with
  | nil => simp [List.lookup] at h
  | cons p rest ih =>
    obtain ⟨pk, pv⟩ := p
    rw [List.lookup] at h
    split at h
    · next heq =>
      cases h
      have : k = pk := by simpa using heq
      subst this
      exact List.mem_cons_self _ _
    · exact List.mem_cons_of_mem _ (ih h)

/-- A nonempty result of `dropWhile` starts with an element failing the
predicate. -/
theorem dropWhile_head_false {α : Type} (p : α → Bool) (l : List α) (b : α) (t : List α)
    (h : l.dropWhile p = b :: t) : p b = false := by
  induction l with
  | nil => simp at h
  | cons a l ih =>
    rw [List.dropWhile_cons] at h
    split at h
    · exact ih h
    · next hpa =>
      cases h
      simpa using hpa

/-- Left-stripping an already right-and-left-stripped character list is the
identity. -/
theorem lstrip_rstrip_lstrip (cs : List Char) :
    lstripList (rstripList (lstripList cs)) = rstripList (lstripList cs) := by
  have hr : rstripList (lstripList cs) = List.rdropWhile isPySpace (lstripList cs) := rfl
  rw [hr]
  rcases he : List.rdropWhile isPySpace (lstripList cs) with _ | ⟨b, u⟩
  · rfl
  · have hpre : List.rdropWhile isPySpace (lstripList cs) <+: lstripList cs :=
      List.rdropWhile_prefix _ _
    rw [he] at hpre
    obtain ⟨w, hw⟩ := hpre
    have hb : isPySpace b = false := by
      apply dropWhile_head_false isPySpace cs b (u ++ w)
      have : lstripList cs = b :: (u ++ w) := by rw [← hw]; simp
      simpa [lstripList] using this
    simp [lstripList, List.dropWhile_cons, hb]

/-- Python `strip` is idempotent. -/
theorem pystrip_idem (s : String) : pystrip (pystrip s) = pystrip s := by
  show String.mk (rstripList (lstripList (rstripList (lstripList s.data)))) =
    String.mk (rstripList (lstripList s.data))
  rw [lstrip_rstrip_lstrip]
  show String.mk (List.rdropWhile isPySpace (List.rdropWhile isPySpace (lstripList s.data))) = _
  rw [List.rdropWhile_idempotent]
  rfl

/-- Every canonical value of the alias table is a fixed point of
`normalize_league_name`. -/
theorem alias_values_fixed :
    ∀ p ∈ SCRAPERFC_ALIASES, normalize_league_name (some p.2) = some p.2 := by decide

/-! ## Claim C7: normalize_league_name contract -/

/-- Claim C7: `normalize_league_name` returns no value for absent or empty
input; otherwise it trims and lower-cases the input and looks it up in the
static alias table, returning the canonical name on a hit and the trimmed
original-case input on a miss; in particular "Premier League", "EPL" and
" epl " all normalize to "EPL", an unknown name passes through unchanged, and
`none` maps to `none`. -/
theorem c7_normalize_contract :
    (normalize_league_name (some "Premier League") = some "EPL") ∧
    (normalize_league_name (some "EPL") = some "EPL") ∧
    (normalize_league_name (some " epl ") = some "EPL") ∧
    (normalize_league_name (some "Unknown XYZ League") = some "Unknown XYZ League") ∧
    (normalize_league_name none = none) ∧
    (normalize_league_name (some "") = none) ∧
    (∀ s v, s ≠ "" → List.lookup (pylower (pystrip s)) SCRAPERFC_ALIASES = some v →
      normalize_league_name (some s) = some v) ∧
    (∀ s, s ≠ "" → List.lookup (pylower (pystrip s)) SCRAPERFC_ALIASES = none →
      normalize_league_name (some s) = some (pystrip s)) := by
  refine ⟨by decide, by decide, by decide, by decide, rfl, rfl, ?_, ?_⟩
  · intro s v hs hl
    simp [normalize_league_name, hs, hl]
  · intro s hs hl
    simp [normalize_league_name, hs, hl]

/-- Witness for C7: the general hit and miss branches at concrete inputs. -/
theorem c7_normalize_witness :
    normalize_league_name (some "uefa champions league") = some "Champions League" ∧
    normalize_league_name (some "Foo Bar") = some "Foo Bar" := by
  constructor
  · exact c7_normalize_contract.2.2.2.2.2.2.1 "uefa champions league" "Champions League"
      (by decide) (by decide)
  · exact c7_normalize_contract.2.2.2.2.2.2.2 "Foo Bar" (by decide) (by decide)

/-! ## Claim C10: idempotence of normalize_league_name -/

/-- Claim C10 counterexample: on the whitespace-only input " " the claimed
idempotence fails — `normalize_league_name` sends `some " "` to `some ""`
(the trimmed passthrough), which a second application sends to `none`. -/
theorem c10_counterexample_whitespace :
    normalize_league_name (normalize_league_name (some " ")) ≠
      normalize_league_name (some " ") ∧
    normalize_league_name (some " ") = some "" := by
  refine ⟨by decide, by decide⟩

/-- Claim C10, amended: `normalize_league_name` is idempotent on the no-value
input and on every string whose trimmed form is nonempty (every canonical
alias value is a fixed point and the trimmed passthrough of an unknown name is
likewise fixed); only nonempty whitespace-only strings escape, collapsing to
the empty string and then to no value. -/
theorem c10_idempotent_amended :
    (normalize_league_name (normalize_league_name none) = normalize_league_name none) ∧
    (∀ s : String, pystrip s ≠ "" →
      normalize_league_name (normalize_league_name (some s)) =
        normalize_league_name (some s)) := by
  refine ⟨rfl, fun s h => ?_⟩
  have hs : s ≠ "" := by
    intro h0
    apply h
    rw [h0]
    rfl
  rcases hl : List.lookup (pylower (pystrip s)) SCRAPERFC_ALIASES with _ | v
  · have h1 : normalize_league_name (some s) = some (pystrip s) := by
      simp [normalize_league_name, hs, hl]
    rw [h1]
    have hstrip : pystrip (pystrip s) = pystrip s := pystrip_idem s
    simp [normalize_league_name, h, hstrip, hl]
  · have h1 : normalize_league_name (some s) = some v := by
      simp [normalize_league_name, hs, hl]
    rw [h1]
    exact alias_values_fixed _ (lookup_mem hl)

/-- Witness for C10 (amended): idempotence at the concrete input "EPL". -/
theorem c10_idempotent_witness :
    normalize_league_name (normalize_league_name (some "EPL")) =
      normalize_league_name (some "EPL") :=
  c10_idempotent_amended.2 "EPL" (by decide)


/-! ## Claim C3: season_order_key -/

/-- A digit character is not Python whitespace. -/
theorem digit_not_space (c : Char) (h : isAsciiDigit c = true) : isPySpace c = false := by
  simp [isAsciiDigit] at h
  simp [isPySpace]
  omega

/-- Dropping while the predicate fails on every element is the identity. -/
theorem dropWhile_all_false {α : Type} (p : α → Bool) (l : List α)
    (h : ∀ a ∈ l, p a = false) : l.dropWhile p = l := by
  cases l with
  | nil => rfl
  | cons a rest => simp [List.dropWhile_cons, h a (by simp)]

/-- Stripping a string with no whitespace characters is the identity. -/
theorem pystrip_no_space (s : String) (h : ∀ c ∈ s.data, isPySpace c = false) :
    pystrip s = s := by
  have h1 : lstripList s.data = s.data := dropWhile_all_false _ _ h
  have h2 : rstripList s.data = s.data := by
    unfold rstripList
    rw [dropWhile_all_false _ _ (by intro a ha; exact h a (by simpa using ha))]
    simp
  show String.mk (rstripList (lstripList s.data)) = s
  rw [h1, h2]

/-- On an all-digit tail the digit-group parser accumulates the decimal
value. -/
theorem digitGroupRest_digits (cs : List Char) :
    ∀ acc, (∀ c ∈ cs, isAsciiDigit c = true) →
      digitGroupRest acc cs = some (cs.foldl (fun a c => 10 * a + digitVal c) acc) := by
  induction cs with
  | nil => intro acc _; rfl
  | cons c rest ih =>
    intro acc h
    have hc : isAsciiDigit c = true := h c (by simp)
    have hcu : ¬(c = '_') := by
      intro e
      subst e
      simp [isAsciiDigit] at hc
    rw [digitGroupRest.eq_def]
    simp only [if_neg hcu, if_pos hc, ih _ (fun x hx => h x (by simp [hx]))]
    simp

/-- On a nonempty all-digit list the Python digit part is the decimal value. -/
theorem pyDigitPart_digits (cs : List Char) (hne : cs ≠ [])
    (h : ∀ c ∈ cs, isAsciiDigit c = true) : pyDigitPart cs = some (natOfDigits cs) := by
  cases cs with
  | nil => exact absurd rfl hne
  | cons c rest =>
    have hc : isAsciiDigit c = true := h c (by simp)
    rw [pyDigitPart, if_pos hc, digitGroupRest_digits rest (digitVal c)
      (fun x hx => h x (by simp [hx]))]
    simp [natOfDigits]

/-- Claim C3 counterexample: the claim's example "30/31" -> 2031 is false on
the code: the ending pair of "30/31" is 31, which lies past the pivot, so
`season_order_key` returns 1931 (the claim's own general formula also gives
1931 here). -/
theorem c3_counterexample_pivot :
    season_order_key "30/31" = 1931 ∧ (1931 : Int) ≠ 2031 := by
  refine ⟨by decide, by decide⟩

/-- Claim C3, amended on the "30/31" example: `season_order_key` maps every
exactly-four-digit key to its own integer value (agreeing with the Python
`int` parse); a `DD/DD` key maps to the ending year under the century pivot
`end ≤ 30 → 2000 + end`, otherwise `1900 + end`, so "24/25" gives 2025,
"99/00" gives 2000, "29/30" gives 2030, "30/31" gives 1931 and "31/32" gives
1932; any other key is settled by a direct Python `int` parse whose failure
yields the sentinel -1; the sentinel is strictly smaller than the key of any
four-digit or `DD/DD` season, and the function is total (never raises). -/
theorem c3_season_order_key_spec :
    (∀ k : String, matchesFourDigits k.data = true →
      season_order_key k = Int.ofNat (natOfDigits k.data) ∧
      pyIntParse k = some (Int.ofNat (natOfDigits k.data))) ∧
    (season_order_key "24/25" = 2025 ∧ season_order_key "99/00" = 2000 ∧
      season_order_key "29/30" = 2030 ∧ season_order_key "30/31" = 1931 ∧
      season_order_key "31/32" = 1932) ∧
    (∀ k : String, matchesFourDigits (pystrip k).data = false →
      ddSlashDD (pystrip k).data = none →
      season_order_key k = (pyIntParse (pystrip k)).getD (-1)) ∧
    (∀ k : String,
      matchesFourDigits (pystrip k).data = true ∨ (ddSlashDD (pystrip k).data).isSome = true →
      -1 < season_order_key k) := by
  refine ⟨?_, ⟨by decide, by decide, by decide, by decide, by decide⟩, ?_, ?_⟩
  · intro k hm
    have hm2 := (Bool.and_eq_true _ _).mp hm
    have hlen : k.data.length = 4 := by simpa using hm2.1
    have hdig : ∀ c ∈ k.data, isAsciiDigit c = true :=
      fun c hc => by simpa using List.all_eq_true.mp hm2.2 c hc
    have hstrip : pystrip k = k :=
      pystrip_no_space k (fun c hc => digit_not_space c (hdig c hc))
    refine ⟨?_, ?_⟩
    · simp only [season_order_key, hstrip]
      rw [if_pos hm]
    · cases hd : k.data with
      | nil => rw [hd] at hlen; simp at hlen
      | cons c rest =>
        have hc : isAsciiDigit c = true := hdig c (by rw [hd]; simp)
        have hplus : ¬(c = '+') := by
          intro e
          subst e
          simp [isAsciiDigit] at hc
        have hminus : ¬(c = '-') := by
          intro e
          subst e
          simp [isAsciiDigit] at hc
        have hdp : pyDigitPart (c :: rest) = some (natOfDigits (c :: rest)) := by
          apply pyDigitPart_digits _ (by simp)
          intro x hx
          exact hdig x (by rw [hd]; exact hx)
        unfold pyIntParse
        rw [hd]
        simp [hplus, hminus, hdp]
  · intro k h1 h2
    simp only [season_order_key, h1, h2]
    cases hp : pyIntParse (pystrip k) <;> simp
  · intro k hor
    rcases hor with h4 | hdd
    · simp only [season_order_key]
      rw [if_pos h4]
      exact lt_of_lt_of_le (by norm_num) (Int.ofNat_nonneg _)
    · rcases Option.isSome_iff_exists.mp hdd with ⟨e, he⟩
      cases h4 : matchesFourDigits (pystrip k).data with
      | true =>
        simp only [season_order_key]
        rw [if_pos h4]
        exact lt_of_lt_of_le (by norm_num) (Int.ofNat_nonneg _)
      | false =>
        simp only [season_order_key, h4, he]
        have hnn : (0 : Int) ≤
            if e ≤ 30 then Int.ofNat (2000 + e) else Int.ofNat (1900 + e) := by
          split <;> exact Int.ofNat_nonneg _
        exact lt_of_lt_of_le (by norm_num) hnn

/-- Witness for C3 (amended): the four-digit, direct-parse and sentinel-bound
branches at concrete keys. -/
theorem c3_season_order_key_witness :
    (season_order_key "2024" = Int.ofNat (natOfDigits ("2024" : String).data) ∧
      pyIntParse "2024" = some (Int.ofNat (natOfDigits ("2024" : String).data))) ∧
    season_order_key "abc" = (pyIntParse (pystrip "abc")).getD (-1) ∧
    (-1 : Int) < season_order_key "24/25" := by
  refine ⟨c3_season_order_key_spec.1 "2024" (by decide), ?_, ?_⟩
  · exact c3_season_order_key_spec.2.2.1 "abc" (by decide) (by decide)
  · exact c3_season_order_key_spec.2.2.2 "24/25" (by decide)

/-! ## Claim C1: fallback season resolution -/

/-- Claim C1: the fallback season resolution follows the spec's algorithm in
order: an explicit season key is used verbatim (as the string it is) and
takes precedence over everything else; otherwise a known season id found in
the inverted season mapping yields the matching season key; otherwise the key
maximal under `season_order_key` is chosen; a league with no seasons at all
(and no explicit key) fails with the no-seasons error; and on
`seasons = {"2024": 1, "2025": 2}` the three concrete scenarios of the spec
resolve to "2024", "2025" and "2025" respectively. -/
theorem c1_fallback_season_resolution :
    (∀ (seasons : List (String × Int)) (sid : Option Int) (y : String),
      fallback_resolve_season seasons sid (some y) = Except.ok y) ∧
    (∀ (seasons : List (String × Int)) (sid : Int) (k : String),
      (∀ p ∈ seasons, p.1 ≠ "") → invLookup seasons sid = some k →
      fallback_resolve_season seasons (some sid) none = Except.ok k) ∧
    (∀ (seasons : List (String × Int)) (sid : Option Int) (m : String),
      sid.bind (invLookup seasons) = none →
      maxBySeasonOrder (seasons.map Prod.fst) = some m →
      fallback_resolve_season seasons sid none = Except.ok m) ∧
    (∀ sid : Option Int,
      fallback_resolve_season [] sid none = Except.error FbErr.noSeasonsAvailable) ∧
    (fallback_resolve_season [("2024", 1), ("2025", 2)] (some 2) (some "2024") =
      Except.ok "2024") ∧
    (fallback_resolve_season [("2024", 1), ("2025", 2)] (some 2) none = Except.ok "2025") ∧
    (fallback_resolve_season [("2024", 1), ("2025", 2)] none none = Except.ok "2025") := by
  refine ⟨fun _ _ _ => rfl, ?_, ?_, ?_, rfl, rfl, rfl⟩
  · intro seasons sid k hne hinv
    have hk : k ≠ "" := by
      unfold invLookup at hinv
      rcases ho : List.find? (fun p => p.2 == sid) seasons.reverse with _ | p
      · rw [ho] at hinv
        cases hinv
      · rw [ho] at hinv
        have hp1 : p.1 = k := by simpa using hinv
        have hp : p ∈ seasons.reverse := List.mem_of_find?_eq_some ho
        rw [List.mem_reverse] at hp
        rw [← hp1]
        exact hne p hp
    simp [fallback_resolve_season, Option.bind, hinv, hk]
  · intro seasons sid m hbind hmax
    cases sid with
    | none => simp [fallback_resolve_season, Option.bind, hmax]
    | some i =>
      have hi : invLookup seasons i = none := by simpa [Option.bind] using hbind
      simp [fallback_resolve_season, Option.bind, hi, hmax]
  · intro sid
    cases sid <;> rfl

/-- Witness for C1: the inverted-mapping branch and the latest-season branch
at concrete season tables. -/
theorem c1_season_resolution_witness :
    fallback_resolve_season [("2024", 1), ("2025", 2)] (some 1) none = Except.ok "2024" ∧
    fallback_resolve_season [("abc", 9), ("24/25", 7)] (some 5) none = Except.ok "24/25" := by
  constructor
  · exact c1_fallback_season_resolution.2.1 _ 1 "2024" (by decide) (by decide)
  · exact c1_fallback_season_resolution.2.2.1 _ (some 5) "24/25" (by decide) (by decide)

/-! ## Claim C8: goal fields of the standings rows -/

/-- Claim C8 counterexample: a row whose upstream `scoresFor` is present with
value 0 does not keep that value — the Python `or` treats 0 as falsy and the
produced goals-for field takes the `goalsFor` alias (5) instead. -/
theorem c8_counterexample_zero_scores :
    zeroScoresRow.scoresFor = some 0 ∧
    (standRowOut none zeroScoresRow).gp = some 5 ∧
    (standRowOut none zeroScoresRow).gp ≠ zeroScoresRow.scoresFor := by
  refine ⟨rfl, rfl, by decide⟩

/-- Claim C8, amended: the goals-for, goals-against and goal-diff fields of a
produced standings row take the upstream `scoresFor`/`scoresAgainst`/
`scoreDiff` values when those are present and nonzero, and fall back to the
`goalsFor`/`goalsAgainst`/`goalDiff` aliases when the preferred field is
absent or zero (Python `or` falsiness); every row produced by the standings
flattening arises from this per-row mapping. -/
theorem c8_goals_fields_amended :
    (∀ (g : Option String) (row : StandRowIn) (x : Int), x ≠ 0 →
      (row.scoresFor = some x → (standRowOut g row).gp = some x) ∧
      (row.scoresAgainst = some x → (standRowOut g row).gc = some x) ∧
      (row.scoreDiff = some x → (standRowOut g row).sg = some x)) ∧
    (∀ (g : Option String) (row : StandRowIn),
      ((row.scoresFor = none ∨ row.scoresFor = some 0) →
        (standRowOut g row).gp = row.goalsFor) ∧
      ((row.scoresAgainst = none ∨ row.scoresAgainst = some 0) →
        (standRowOut g row).gc = row.goalsAgainst) ∧
      ((row.scoreDiff = none ∨ row.scoreDiff = some 0) →
        (standRowOut g row).sg = row.goalDiff)) ∧
    (∀ (blocks : List StandBlockIn) (r : StandRowOut), r ∈ standingsRows blocks →
      ∃ g row, r = standRowOut g row) := by
  refine ⟨?_, ?_, ?_⟩
  · intro g row x hx
    refine ⟨?_, ?_, ?_⟩ <;> intro h <;> simp [standRowOut, pyOrInt, h, hx]
  · intro g row
    refine ⟨?_, ?_, ?_⟩ <;> rintro (h | h) <;> simp [standRowOut, pyOrInt, h]
  · intro blocks r hr
    simp only [standingsRows, List.mem_flatMap, List.mem_map] at hr
    obtain ⟨b, _, row, _, hrow⟩ := hr
    exact ⟨_, _, hrow.symm⟩

/-- Witness for C8 (amended): the nonzero-preference and zero-fallback
branches at concrete rows. -/
theorem c8_goals_fields_witness :
    (standRowOut none
      ⟨none, none, none, none, none, none, some 3, none, none, some 9, none, none, none⟩).gp =
      some 3 ∧
    (standRowOut none zeroScoresRow).gp = zeroScoresRow.goalsFor := by
  constructor
  · exact (c8_goals_fields_amended.1 none _ 3 (by decide)).1 rfl
  · exact (c8_goals_fields_amended.2.1 none zeroScoresRow).1 (Or.inr rfl)

/-! ## Claim C2: extract_ids_from_url -/

/-- A successful left-to-right search finds the first matching suffix: the
match holds at some offset and fails at every earlier offset. -/
theorem searchFirst_some (f : List Char → Option Nat) (cs : List Char) (v : Nat)
    (h : searchFirst f cs = some v) :
    ∃ i, f (cs.drop i) = some v ∧ ∀ j < i, f (cs.drop j) = none := by
  induction cs with
  | nil =>
    exact ⟨0, h, fun j hj => absurd hj (Nat.not_lt_zero j)⟩
  | cons c rest ih =>
    rw [searchFirst] at h
    cases hf : f (c :: rest) with
    | some w =>
      rw [hf] at h
      cases h
      exact ⟨0, hf, fun j hj => absurd hj (Nat.not_lt_zero j)⟩
    | none =>
      rw [hf] at h
      obtain ⟨i, hi, hj⟩ := ih h
      refine ⟨i + 1, by simpa using hi, ?_⟩
      intro j hjlt
      cases j with
      | zero => simpa using hf
      | succ j => simpa using hj j (by omega)

/-- A left-to-right search fails exactly when the matcher fails at every
suffix. -/
theorem searchFirst_none_iff (f : List Char → Option Nat) (cs : List Char) :
    searchFirst f cs = none ↔ ∀ i, f (cs.drop i) = none := by
  induction cs with
  | nil =>
    constructor
    · intro h i
      simpa using h
    · intro h
      exact h 0
  | cons c rest ih =>
    rw [searchFirst]
    cases hf : f (c :: rest) with
    | some w =>
      simp only [hf]
      constructor
      · intro h
        cases h
      · intro h
        have h0 := h 0
        simp [hf] at h0
    | none =>
      simp only [hf]
      rw [ih]
      constructor
      · intro h i
        cases i with
        | zero => simpa using hf
        | succ i => simpa using h i
      · intro h i
        simpa using h (i + 1)

/-- Claim C2 counterexample: on "https://x/12/34#id:5" the code returns
tournament id 12 — the FIRST integer path segment (followed by '/', '#', '?'
or the end) — while the last such segment, read from the claim's words, is
34. -/
theorem c2_counterexample :
    extract_ids_from_url "https://x/12/34#id:5" = some (12, 5) ∧
    searchLastSeg tourHere ("https://x/12/34#id:5" : String).data = some 34 ∧
    (12 : Nat) ≠ 34 := by
  refine ⟨by decide, by decide, by decide⟩

/-- Claim C2, amended on "last": `extract_ids_from_url` returns the pair
(tournamentId, seasonId) where tournamentId is the FIRST integer segment of
the URL that is immediately followed by '/', '#', '?' or the end of the
string (Python `re.search` is leftmost-match) and seasonId is the integer
following the first occurrence of the literal marker "#id:";
"https://x/tournament/384#id:70083" yields (384, 70083); and the call fails
(raising the `ValueError` that plays MalformedReferenceError) exactly when
either pattern is absent, with no partial-success mode. -/
theorem c2_extract_ids_amended :
    (extract_ids_from_url "https://x/tournament/384#id:70083" = some (384, 70083)) ∧
    (extract_ids_from_url "https://x/tournament/384" = none) ∧
    (∀ (url : String) (t s : Nat), extract_ids_from_url url = some (t, s) →
      (∃ i, tourHere (url.data.drop i) = some t ∧ ∀ j < i, tourHere (url.data.drop j) = none) ∧
      (∃ i, idHere (url.data.drop i) = some s ∧ ∀ j < i, idHere (url.data.drop j) = none)) ∧
    (∀ url : String, extract_ids_from_url url = none ↔
      ((∀ i, tourHere (url.data.drop i) = none) ∨ (∀ i, idHere (url.data.drop i) = none))) := by
  refine ⟨by decide, by decide, ?_, ?_⟩
  · intro url t s h
    unfold extract_ids_from_url at h
    rcases ht : searchFirst tourHere url.data with _ | t0 <;>
      rcases hs2 : searchFirst idHere url.data with _ | s0 <;>
        rw [ht, hs2] at h <;> simp at h
    obtain ⟨h1, h2⟩ := h
    subst h1
    subst h2
    exact ⟨searchFirst_some _ _ _ ht, searchFirst_some _ _ _ hs2⟩
  · intro url
    unfold extract_ids_from_url
    rw [← searchFirst_none_iff tourHere url.data, ← searchFirst_none_iff idHere url.data]
    rcases ht : searchFirst tourHere url.data with _ | t0 <;>
      rcases hs2 : searchFirst idHere url.data with _ | s0 <;> simp

/-- Witness for C2 (amended): the first-match characterization instantiated
at the canonical URL of the spec. -/
theorem c2_extract_ids_witness :
    (∃ i, tourHere (("https://x/tournament/384#id:70083" : String).data.drop i) = some 384 ∧
      ∀ j < i, tourHere (("https://x/tournament/384#id:70083" : String).data.drop j) = none) ∧
    (∃ i, idHere (("https://x/tournament/384#id:70083" : String).data.drop i) = some 70083 ∧
      ∀ j < i, idHere (("https://x/tournament/384#id:70083" : String).data.drop j) = none) :=
  c2_extract_ids_amended.2.2.1 "https://x/tournament/384#id:70083" 384 70083 (by decide)

/-! ## Claim C9: the defensive RuntimeError branch of get_json -/

/-- Claim C9: `get_json` ends in its defensive RuntimeError branch only when
the header-profile list is exhausted with no response ever obtained (no
recorded 403 failure); since the profile list is nonempty and every iteration
either returns, raises, or records a 403 failure, the branch is unreachable
at the actual call (for any session whose own failures are not that
RuntimeError). -/
theorem c9_runtime_branch_unreachable :
    (∀ (σ : Type) (sget : HeaderProfile → σ → Except PErr ((Nat × String) × σ))
        (sleep06 : σ → σ) (ps : List HeaderProfile) (lastExc : Option PErr) (s : σ),
      (∀ h st, sget h st ≠ Except.error PErr.runtimeUnexpected) →
      lastExc ≠ some PErr.runtimeUnexpected →
      (getJsonLoop sget sleep06 ps lastExc s).1 = Except.error PErr.runtimeUnexpected →
      ps = [] ∧ lastExc = none) ∧
    (∀ (σ : Type) (sget : HeaderProfile → σ → Except PErr ((Nat × String) × σ))
        (sleep06 : σ → σ) (s : σ),
      (∀ h st, sget h st ≠ Except.error PErr.runtimeUnexpected) →
      (get_json sget sleep06 s).1 ≠ Except.error PErr.runtimeUnexpected) := by
  have core : ∀ (σ : Type) (sget : HeaderProfile → σ → Except PErr ((Nat × String) × σ))
      (sleep06 : σ → σ) (ps : List HeaderProfile) (lastExc : Option PErr) (s : σ),
      (∀ h st, sget h st ≠ Except.error PErr.runtimeUnexpected) →
      lastExc ≠ some PErr.runtimeUnexpected →
      (getJsonLoop sget sleep06 ps lastExc s).1 = Except.error PErr.runtimeUnexpected →
      ps = [] ∧ lastExc = none := by
    intro σ sget sleep06 ps
    induction ps with
    | nil =>
      intro lastExc s _ hlast hres
      cases lastExc with
      | none => exact ⟨rfl, rfl⟩
      | some e =>
        rw [getJsonLoop] at hres
        simp at hres
        exact absurd (by rw [hres]) hlast
    | cons hdr rest ih =>
      intro lastExc s hs hlast hres
      rw [getJsonLoop] at hres
      cases hg : sget hdr s with
      | error e =>
        rw [hg] at hres
        simp at hres
        exact absurd (by rw [← hres]; exact hg) (hs hdr s)
      | ok pr =>
        obtain ⟨⟨status, body⟩, s1⟩ := pr
        rw [hg] at hres
        simp only at hres
        by_cases h403 : status = 403
        · rw [if_pos h403] at hres
          have := ih (some (PErr.httpError 403)) (sleep06 s1) hs (by simp) hres
          cases this.2
        · rw [if_neg h403] at hres
          by_cases h400 : 400 ≤ status
          · rw [if_pos h400] at hres
            simp at hres
          · rw [if_neg h400] at hres
            simp at hres
  refine ⟨core, ?_⟩
  intro σ sget sleep06 s hs hres
  have h1 := core σ sget sleep06 headerProfiles none s hs (by simp) hres
  simp [headerProfiles] at h1

/-- Witness for C9: the defensive branch is reached exactly in the vacuous
configuration the theorem isolates — an empty profile list with no recorded
failure. -/
theorem c9_unreachable_witness :
    ([] : List HeaderProfile) = [] ∧ (none : Option PErr) = none :=
  c9_runtime_branch_unreachable.1 Unit (fun _ st => Except.ok ((200, ""), st)) id []
    none () (fun h st => by simp) (by simp) rfl

/-! ## Claim C5: the resilient client against response sequences -/

/-- Claim C5: against the upstream response sequence [403, 403, 200] the
client returns the 200 payload after exactly two intervening waits (the two
sleeps of the retry policy that absorbs the 403s); an all-403 sequence long
enough to exhaust the retry budget raises the terminal retry error; and a
first response with any status other than 403 short-circuits the header
rotation — the result is fixed before the second profile is ever consulted. -/
theorem c5_resilient_client :
    (get_json_net ⟨[(403, "a"), (403, "b"), (200, "payload")], 0⟩ =
      (Except.ok "payload", ⟨[], 2⟩)) ∧
    (∀ q : List (Nat × String), (∀ p ∈ q, p.1 = 403) → 4 ≤ q.length →
      (get_json_net ⟨q, 0⟩).1 = Except.error PErr.retryError) ∧
    (∀ (σ : Type) (sget : HeaderProfile → σ → Except PErr ((Nat × String) × σ))
        (sleep06 : σ → σ) (s0 s1 : σ) (code : Nat) (body : String),
      sget HeaderProfile.primary s0 = Except.ok ((code, body), s1) → code ≠ 403 →
      get_json sget sleep06 s0 =
        (if 400 ≤ code then Except.error (PErr.httpError code) else Except.ok body, s1)) := by
  refine ⟨rfl, ?_, ?_⟩
  · intro q hall hlen
    rcases q with _ | ⟨a, q⟩
    · simp at hlen
    rcases q with _ | ⟨b, q⟩
    · simp at hlen
    rcases q with _ | ⟨c, q⟩
    · simp at hlen
    rcases q with _ | ⟨d, q⟩
    · simp at hlen
    obtain ⟨a1, a2⟩ := a
    obtain ⟨b1, b2⟩ := b
    obtain ⟨c1, c2⟩ := c
    obtain ⟨d1, d2⟩ := d
    have ha : a1 = 403 := hall (a1, a2) (by simp)
    have hb : b1 = 403 := hall (b1, b2) (by simp)
    have hc : c1 = 403 := hall (c1, c2) (by simp)
    have hd : d1 = 403 := hall (d1, d2) (by simp)
    subst ha
    subst hb
    subst hc
    subst hd
    rfl
  · intro σ sget sleep06 s0 s1 code body hsget hcode
    unfold get_json headerProfiles
    rw [getJsonLoop, hsget]
    simp only [if_neg hcode]
    by_cases h400 : 400 ≤ code
    · rw [if_pos h400, if_pos h400]
    · rw [if_neg h400, if_neg h400]

/-- Witness for C5: the exhausted-budget branch at a concrete all-403 queue
and the short-circuit branch at a concrete 404 session. -/
theorem c5_client_witness :
    (get_json_net ⟨[(403, "w"), (403, "x"), (403, "y"), (403, "z")], 0⟩).1 =
      Except.error PErr.retryError ∧
    get_json (fun _ (st : Unit) => Except.ok ((404, "nf"), st)) (fun st => st) () =
      (Except.error (PErr.httpError 404), ()) := by
  constructor
  · exact c5_resilient_client.2.1 _ (by decide) (by decide)
  · have h := c5_resilient_client.2.2 Unit (fun _ st => Except.ok ((404, "nf"), st))
      (fun st => st) () () 404 "nf" rfl (by decide)
    simpa using h

/-! ## Claim C4: primary failure hands off to the fallback exactly once -/

/-- Claim C4: when the primary standings fetch (or the teams fetch) raises,
the URL-driven run aborts the primary path, invokes the fallback exactly once
with the resolved league name, and writes at most the two fallback files —
never standings.csv, teams.csv or events.csv; when the fallback succeeds with
nonempty matches and stats, exactly the two fallback files are written. -/
theorem c4_primary_abort_fallback_once :
    ∀ (env : UrlRunEnv) (leagueName : String),
      ((∃ err, env.standingsFetch = Except.error err) ∨
        (∃ err, env.teamsFetch = Except.error err)) →
      ((mainUrlRun env (some leagueName)).2 = [leagueName] ∧
        (∀ f ∈ (mainUrlRun env (some leagueName)).1,
          f = "events_fallback.csv" ∨ f = "player_stats_fallback.csv") ∧
        (∀ ms st, env.fallbackFetch = Except.ok (ms, st) → ms ≠ [] → st ≠ [] →
          (mainUrlRun env (some leagueName)).1 =
            ["events_fallback.csv", "player_stats_fallback.csv"])) := by
  intro env leagueName hdis
  have hmain : mainUrlRun env (some leagueName) = fallbackRun env (some leagueName) := by
    rcases hdis with ⟨err, he⟩ | ⟨err, he⟩
    · simp [mainUrlRun, api_get_standings, he]
    · cases hst : env.standingsFetch with
      | error e2 => simp [mainUrlRun, api_get_standings, hst]
      | ok blocks => simp [mainUrlRun, api_get_standings, api_get_teams, hst, he]
  rw [hmain]
  unfold fallbackRun
  cases hf : env.fallbackFetch with
  | error u =>
    refine ⟨rfl, by simp, ?_⟩
    intro ms st hok
    simp at hok
  | ok pr =>
    obtain ⟨ms0, st0⟩ := pr
    refine ⟨rfl, ?_, ?_⟩
    · intro f hfm
      simp only [List.mem_append] at hfm
      rcases hfm with hfm | hfm
      · left
        revert hfm
        split <;> simp
      · right
        revert hfm
        split <;> simp
    · intro ms st hok hms hst
      cases hok
      simp [hms, hst]

/-- Witness for C4: the standings-failure run writes exactly the two fallback
files and calls the fallback once with the resolved league name. -/
theorem c4_primary_abort_witness :
    (mainUrlRun standingsFailEnv (some "EPL")).2 = ["EPL"] ∧
    (mainUrlRun standingsFailEnv (some "EPL")).1 =
      ["events_fallback.csv", "player_stats_fallback.csv"] := by
  have h := c4_primary_abort_fallback_once standingsFailEnv "EPL"
    (Or.inl ⟨PErr.retryError, rfl⟩)
  exact ⟨h.1, h.2.2 [emptyMatchRow] ["statrow"] rfl (by simp) (by simp)⟩

/-! ## Claim C6: events failure handling in the primary path -/

/-- Claim C6 counterexample: with standings and teams succeeding (standings
nonempty) and the events fetch failing with the transport retry error
(exhausted retries), the failure is NOT swallowed: the run escalates to the
fallback (called once with the league name) and standings.csv is not
produced. -/
theorem c6_counterexample_retry_escalates :
    (mainUrlRun retryEventsEnv (some "EPL")).2 = ["EPL"] ∧
    "standings.csv" ∉ (mainUrlRun retryEventsEnv (some "EPL")).1 ∧
    "events_fallback.csv" ∈ (mainUrlRun retryEventsEnv (some "EPL")).1 := by
  refine ⟨rfl, by decide, by decide⟩

/-- Claim C6, amended to HTTP status errors: when standings and teams succeed
and the events fetch fails with an HTTP status error (`requests.HTTPError`,
which covers non-2xx responses and the exhausted header rotation), the
failure is swallowed inside `api_get_events` into an empty result set:
events.csv is not produced, the fallback is never invoked, and standings.csv
and teams.csv are still written when nonempty. A transport
`requests.exceptions.RetryError` from the events fetch is not caught there
and escalates to the fallback instead. -/
theorem c6_http_error_swallowed :
    ∀ (env : UrlRunEnv) (league : Option String) (sb : List StandBlockIn)
      (tf : List TeamFullIn) (code : Nat),
      env.standingsFetch = Except.ok sb →
      env.teamsFetch = Except.ok tf →
      env.eventsFetch = Except.error (PErr.httpError code) →
      ((mainUrlRun env league).2 = [] ∧
        "events.csv" ∉ (mainUrlRun env league).1 ∧
        "events_fallback.csv" ∉ (mainUrlRun env league).1 ∧
        (standingsRows sb ≠ [] → "standings.csv" ∈ (mainUrlRun env league).1) ∧
        (tf ≠ [] → "teams.csv" ∈ (mainUrlRun env league).1)) := by
  intro env league sb tf code hst htf hev
  have hmain : mainUrlRun env league =
      ((if standingsRows sb ≠ [] then ["standings.csv"] else []) ++
        (if tf.map teamRowOut ≠ [] then ["teams.csv"] else []) ++
        (if ([] : List EventRowOut) ≠ [] then ["events.csv"] else []), []) := by
    simp [mainUrlRun, api_get_standings, api_get_teams, api_get_events, hst, htf, hev]
  rw [hmain]
  refine ⟨rfl, ?_, ?_, ?_, ?_⟩
  · by_cases h1 : standingsRows sb = [] <;> by_cases h2 : tf.map teamRowOut = [] <;>
      simp [h1, h2]
  · by_cases h1 : standingsRows sb = [] <;> by_cases h2 : tf.map teamRowOut = [] <;>
      simp [h1, h2]
  · intro h1
    simp [h1]
  · intro h2
    have h2m : tf.map teamRowOut ≠ [] := by
      intro he
      exact h2 (List.map_eq_nil_iff.mp he)
    by_cases h1 : standingsRows sb = [] <;> simp [h1, h2m]

/-- Witness for C6 (amended): the HTTP-failing events run of `httpEventsEnv`
produces standings.csv, no events.csv, and no fallback call. -/
theorem c6_http_swallowed_witness :
    (mainUrlRun httpEventsEnv (some "EPL")).2 = [] ∧
    "events.csv" ∉ (mainUrlRun httpEventsEnv (some "EPL")).1 ∧
    "standings.csv" ∈ (mainUrlRun httpEventsEnv (some "EPL")).1 := by
  have h := c6_http_error_swallowed httpEventsEnv (some "EPL") _ _ 404 rfl rfl rfl
  exact ⟨h.1, h.2.1, h.2.2.2.1 (by decide)⟩
